import Mathlib

/-
Verification of the per-record extraction engine of the geo-db repository
(src/wiki_data_line.rs), against its natural-language specification.

The JSON data model, the path getters (the json_get helper), and the line
handlers are shallow embeddings of the source. Components of the repository
that are not under src/ (the temporal-qualifier evaluator in wiki_time, the
DataEntry fact type in database, the Classes index in wiki_sparql) are
modelled from the specification; their definitions carry a doc comment
saying so.
-/

namespace GeoDb

/-- Arbitrary-precision decimal number: value is mantissa times 10 to the
exp10 power. Stands in for the JSON number payload (serde_json numbers). -/
structure JNum where
  mantissa : Int
  exp10 : Int
deriving DecidableEq

/-- Model of serde_json::Value: null, booleans, numbers, strings,
arrays and objects (an object is an ordered field list). -/
inductive Json where
  | null
  | bool (b : Bool)
  | num (n : JNum)
  | str (s : String)
  | arr (elems : List Json)
  | obj (fields : List (String × Json))

/-- Field lookup in an object field list (first match wins). -/
def lookupField : List (String × Json) → String → Option Json
  | [], _ => none
  | (k, v) :: rest, key => if k = key then some v else lookupField rest key

/-- Object field access: the .field step of the json_get path helper. -/
def Json.get? : Json → String → Option Json
  | .obj fields, key => lookupField fields key
  | _, _ => none

/-- Array index access: the [i] step of the json_get path helper. -/
def Json.idx? : Json → Nat → Option Json
  | .arr xs, i => xs.get? i
  | _, _ => none

/-- Terminal string coercion of json_get. -/
def Json.asStr? : Json → Option String
  | .str s => some s
  | _ => none

/-- Terminal array coercion of json_get. -/
def Json.asArr? : Json → Option (List Json)
  | .arr xs => some xs
  | _ => none

/-- Terminal object coercion of json_get (keeps the value). -/
def Json.asObj? : Json → Option Json
  | .obj fields => some (.obj fields)
  | _ => none

/-- Terminal object coercion of json_get, exposing the field list. -/
def Json.asFields? : Json → Option (List (String × Json))
  | .obj fields => some fields
  | _ => none

/-- Terminal number coercion of json_get. -/
def Json.asNum? : Json → Option JNum
  | .num n => some n
  | _ => none

/-! Model of serde_json::from_str: a fuel-bounded recursive-descent JSON
parser. Only used by handle_line; all record-level reasoning happens on
parsed Json values. -/

/-- Skip JSON whitespace. -/
def skipWs : List Char → List Char
  | c :: rest =>
    if c = ' ' ∨ c = '\t' ∨ c = '\n' ∨ c = '\r' then skipWs rest else c :: rest
  | [] => []

/-- Hexadecimal digit value. -/
def hexVal? (c : Char) : Option Nat :=
  if '0' ≤ c ∧ c ≤ '9' then some (c.toNat - 48)
  else if 'a' ≤ c ∧ c ≤ 'f' then some (c.toNat - 87)
  else if 'A' ≤ c ∧ c ≤ 'F' then some (c.toNat - 55)
  else none

/-- Parse the remainder of a JSON string literal (after the opening quote),
accumulating characters in reverse. -/
def parseStringAux : Nat → List Char → List Char → Option (String × List Char)
  | 0, _, _ => none
  | _ + 1, [], _ => none
  | fuel + 1, c :: rest, acc =>
    if c = '"' then some (String.mk acc.reverse, rest)
    else if c = '\\' then
      match rest with
      | [] => none
      | e :: rest2 =>
        if e = '"' then parseStringAux fuel rest2 ('"' :: acc)
        else if e = '\\' then parseStringAux fuel rest2 ('\\' :: acc)
        else if e = '/' then parseStringAux fuel rest2 ('/' :: acc)
        else if e = 'n' then parseStringAux fuel rest2 ('\n' :: acc)
        else if e = 't' then parseStringAux fuel rest2 ('\t' :: acc)
        else if e = 'r' then parseStringAux fuel rest2 ('\r' :: acc)
        else if e = 'b' then parseStringAux fuel rest2 (Char.ofNat 8 :: acc)
        else if e = 'f' then parseStringAux fuel rest2 (Char.ofNat 12 :: acc)
        else if e = 'u' then
          match rest2 with
          | h1 :: h2 :: h3 :: h4 :: rest3 =>
            match hexVal? h1, hexVal? h2, hexVal? h3, hexVal? h4 with
            | some a, some b, some c2, some d =>
              let code := ((a * 16 + b) * 16 + c2) * 16 + d
              if 55296 ≤ code ∧ code ≤ 57343 then none
              else parseStringAux fuel rest3 (Char.ofNat code :: acc)
            | _, _, _, _ => none
          | _ => none
        else none
    else if c.toNat < 32 then none
    else parseStringAux fuel rest (c :: acc)

/-- Take a maximal run of decimal digits. -/
def takeDigits : List Char → List Char × List Char
  | [] => ([], [])
  | c :: rest =>
    if '0' ≤ c ∧ c ≤ '9' then
      let p := takeDigits rest
      (c :: p.1, p.2)
    else ([], c :: rest)

/-- Decimal digits to a natural number. -/
def digitsToNat (ds : List Char) : Nat :=
  ds.foldl (fun acc c => acc * 10 + (c.toNat - 48)) 0

/-- Parse a JSON number (sign, integer part without leading zeros, optional
fraction, optional exponent) into mantissa/exponent form. -/
def parseNumber (s : List Char) : Option (JNum × List Char) :=
  let sp : Int × List Char :=
    match s with
    | '-' :: rest => (-1, rest)
    | _ => (1, s)
  let ip := takeDigits sp.2
  if ip.1 = [] then none
  else if ip.1.head? = some '0' ∧ 1 < ip.1.length then none
  else
    let fp : Bool × List Char × List Char :=
      match ip.2 with
      | '.' :: rest =>
        let p := takeDigits rest
        (!p.1.isEmpty, p.1, p.2)
      | _ => (true, [], ip.2)
    if !fp.1 then none
    else
      let ep : Option (Int × List Char) :=
        match fp.2.2 with
        | c :: rest =>
          if c = 'e' ∨ c = 'E' then
            let es : Int × List Char :=
              match rest with
              | '+' :: r => (1, r)
              | '-' :: r => (-1, r)
              | _ => (1, rest)
            let eds := takeDigits es.2
            if eds.1.isEmpty then none
            else some (es.1 * (digitsToNat eds.1 : Int), eds.2)
          else some (0, c :: rest)
        | [] => some (0, [])
      match ep with
      | none => none
      | some (e, s4) =>
        some (⟨sp.1 * (digitsToNat (ip.1 ++ fp.2.1) : Int), e - fp.2.1.length⟩, s4)

mutual

/-- Parse one JSON value. -/
def parseVal (fuel : Nat) (s : List Char) : Option (Json × List Char) :=
  match fuel with
  | 0 => none
  | fuel + 1 =>
    match skipWs s with
    | [] => none
    | c :: rest =>
      if c = '{' then
        match skipWs rest with
        | '}' :: r => some (.obj [], r)
        | r => (parseMembers fuel r []).map (fun p => (Json.obj p.1, p.2))
      else if c = '[' then
        match skipWs rest with
        | ']' :: r => some (.arr [], r)
        | r => (parseElems fuel r []).map (fun p => (Json.arr p.1, p.2))
      else if c = '"' then
        (parseStringAux (rest.length + 1) rest []).map (fun p => (Json.str p.1, p.2))
      else if c = 't' then
        match rest with
        | 'r' :: 'u' :: 'e' :: r => some (.bool true, r)
        | _ => none
      else if c = 'f' then
        match rest with
        | 'a' :: 'l' :: 's' :: 'e' :: r => some (.bool false, r)
        | _ => none
      else if c = 'n' then
        match rest with
        | 'u' :: 'l' :: 'l' :: r => some (.null, r)
        | _ => none
      else
        (parseNumber (c :: rest)).map (fun p => (Json.num p.1, p.2))

/-- Parse the members of a JSON object (positioned at the first key). -/
def parseMembers (fuel : Nat) (s : List Char) (acc : List (String × Json)) :
    Option (List (String × Json) × List Char) :=
  match fuel with
  | 0 => none
  | fuel + 1 =>
    match skipWs s with
    | '"' :: rest =>
      match parseStringAux (rest.length + 1) rest [] with
      | none => none
      | some (key, r1) =>
        match skipWs r1 with
        | ':' :: r2 =>
          match parseVal fuel r2 with
          | none => none
          | some (v, r3) =>
            match skipWs r3 with
            | ',' :: r4 => parseMembers fuel r4 (acc ++ [(key, v)])
            | '}' :: r4 => some (acc ++ [(key, v)], r4)
            | _ => none
        | _ => none
    | _ => none

/-- Parse the elements of a JSON array (positioned at the first element). -/
def parseElems (fuel : Nat) (s : List Char) (acc : List Json) :
    Option (List Json × List Char) :=
  match fuel with
  | 0 => none
  | fuel + 1 =>
    match parseVal fuel s with
    | none => none
    | some (v, r1) =>
      match skipWs r1 with
      | ',' :: r2 => parseElems fuel r2 (acc ++ [v])
      | ']' :: r2 => some (acc ++ [v], r2)
      | _ => none

end

/-- Model of serde_json::from_str: parse a complete JSON document,
requiring only whitespace after the value. -/
def from_str (s : String) : Option Json :=
  let cs := s.toList
  match parseVal (cs.length + 1) cs with
  | some (v, rest) => if skipWs rest = [] then some v else none
  | none => none

/-! Path helpers mirroring the json_get invocations of wiki_data_line.rs. -/

/-- json_get value(obj).id: string. -/
def idOf (obj : Json) : Option String :=
  (obj.get? "id").bind Json.asStr?

/-- json_get value(obj).claims.PROP: array. -/
def claimsArr (obj : Json) (prop : String) : Option (List Json) :=
  ((obj.get? "claims").bind (fun c => c.get? prop)).bind Json.asArr?

/-- json_get value(obj).claims.PROP[0]. -/
def claimFirst (obj : Json) (prop : String) : Option Json :=
  ((obj.get? "claims").bind (fun c => c.get? prop)).bind (fun a => a.idx? 0)

/-- json_get value(st).mainsnak.datavalue.value.FIELD. -/
def mainsnakValueField (st : Json) (field : String) : Option Json :=
  ((((st.get? "mainsnak").bind (fun m => m.get? "datavalue")).bind
    (fun d => d.get? "value")).bind (fun v => v.get? field))

/-- json_get value(st).mainsnak.datavalue.value.id: string. -/
def mainsnakId (st : Json) : Option String :=
  (mainsnakValueField st "id").bind Json.asStr?

/-- json_get value(st).mainsnak.datavalue.value: string. -/
def mainsnakValueStr (st : Json) : Option String :=
  (((st.get? "mainsnak").bind (fun m => m.get? "datavalue")).bind
    (fun d => d.get? "value")).bind Json.asStr?

/-- json_get value(st).mainsnak.snaktype: string. -/
def mainsnakSnaktype (st : Json) : Option String :=
  ((st.get? "mainsnak").bind (fun m => m.get? "snaktype")).bind Json.asStr?

/-- json_get value(st).qualifiers: object. -/
def getQualifiers (st : Json) : Option Json :=
  (st.get? "qualifiers").bind Json.asObj?

/-- json_get value(st).qualifiers.PROP: array. -/
def qualArr (st : Json) (prop : String) : Option (List Json) :=
  ((st.get? "qualifiers").bind (fun q => q.get? prop)).bind Json.asArr?

/-- json_get value(st).qualifiers.PROP[0]: object. -/
def qualFirstObj (st : Json) (prop : String) : Option Json :=
  (((st.get? "qualifiers").bind (fun q => q.get? prop)).bind
    (fun a => a.idx? 0)).bind Json.asObj?

/-! The temporal-qualifier evaluator lives in wiki_time, which is not under
src/; it is modelled from the specification (section 4.1). -/

/-- Fold a digit run into a value, failing on any non-digit. -/
def parseDigitsAux : List Char → Nat → Option Nat
  | [], acc => some acc
  | c :: rest, acc =>
    if '0' ≤ c ∧ c ≤ '9' then parseDigitsAux rest (acc * 10 + (c.toNat - 48))
    else none

/-- Parse a signed decimal integer string (empty and malformed fail). -/
def parseIntStr (s : String) : Option Int :=
  match s.toList with
  | '-' :: rest =>
    match rest with
    | [] => none
    | _ => (parseDigitsAux rest 0).map (fun m => -(m : Int))
  | [] => none
  | cs => (parseDigitsAux cs 0).map (fun m => (m : Int))

/-- str::to_ascii_lowercase — lowercase the ASCII letters only. -/
def toAsciiLower (s : String) : String :=
  String.mk (s.toList.map fun c =>
    if 65 ≤ c.toNat ∧ c.toNat ≤ 90 then Char.ofNat (c.toNat + 32) else c)

/-- Modelled from the spec: wiki_time::parse_wikidata_time. Domain
time-string parsing internals are out of scope; a time string is modelled
as a signed decimal integer instant and the timezone offset is not
modelled. Malformed strings fail to parse. -/
def parse_wikidata_time (time : String) (zone : JNum) : Option Int :=
  parseIntStr time

/-- Modelled from the spec: the date carried by the first snak of a given
qualifier property, as read by the temporal evaluator. Absent or malformed
dates give none (Unknown). -/
def qualifierDate (quals : Json) (prop : String) : Option Int :=
  match (quals.get? prop).bind Json.asArr? with
  | some (q :: _) =>
    ((((q.get? "datavalue").bind (fun d => d.get? "value")).bind
      (fun v => v.get? "time")).bind Json.asStr?).bind parseIntStr
  | _ => none

/-- Modelled from the spec: wiki_time::is_object_start_active. Unknown
(none) if the start-time qualifier is absent or malformed; Active iff its
date is at most now. -/
def is_object_start_active (quals : Option Json) (now : Int) : Option Bool :=
  match quals with
  | none => none
  | some qs => (qualifierDate qs "P580").map (fun d => decide (d ≤ now))

/-- Modelled from the spec: wiki_time::is_object_end_active. Unknown (none)
if the end-time qualifier is absent or malformed; Active iff its date is at
least now. -/
def is_object_end_active (quals : Option Json) (now : Int) : Option Bool :=
  match quals with
  | none => none
  | some qs => (qualifierDate qs "P582").map (fun d => decide (now ≤ d))

/-- Modelled from the spec: wiki_time::is_object_active — false iff either
the start or the end evaluation is explicitly Inactive. -/
def is_object_active (quals : Option Json) (now : Int) : Bool :=
  !(is_object_start_active quals now == some false) &&
  !(is_object_end_active quals now == some false)

/-- Modelled from the spec: wiki_sparql::Classes (not under src/) — the
named sets of class identifiers, built once before processing. -/
structure Classes where
  territorial_entities : List String
  human_settlements : List String
  excluded : List String
  excluded_settlements : List String
  second_level_admin_div : List String
  languages : List String

/-- Modelled from the spec: database::DataEntry (not under src/) — the
fact variants of section 3 of the specification. -/
inductive DataEntry where
  | Country (id iso : String)
  | TerritorialEntity (id : String) (is_2nd : Bool) (iso : Option String)
  | TerritorialEntityParent (id parent : String)
  | ObjectLanguage (id lang_id : String) (index : Nat)
  | ObjectLabel (id lang label : String) (native_order : Option Nat)
  | Language (id code : String)
  | MissingP17 (id : String)
  | CityCountry (id country : String) (priority : Nat)
  | City (id : String) (population : Option Nat) (lat lon : Option JNum)
deriving DecidableEq

/-- The error type of handle_line: a JSON parse error or a channel send
error (crossbeam SendError, receiver gone). -/
inductive HandleLineError where
  | json
  | sink
deriving DecidableEq

/-- Outcome of running a handler: a panic (Rust unwrap/expect failure), an
early Err return, or normal completion; each records the facts already
sent on the channel. -/
inductive HResult where
  | panics (sent : List DataEntry)
  | fail (e : HandleLineError) (sent : List DataEntry)
  | done (sent : List DataEntry)
deriving DecidableEq

/-- Sequencing: continue with the sent-so-far list on normal completion,
propagate panics and errors. -/
def HResult.andThen : HResult → (List DataEntry → HResult) → HResult
  | .done sent, f => f sent
  | r, _ => r

/-- sink.send(entry)? — succeeds while the receiver is alive, otherwise
returns the send error (propagated by the question-mark operator). -/
def send (alive : Bool) (sent : List DataEntry) (e : DataEntry) : HResult :=
  if alive then .done (sent ++ [e]) else .fail .sink sent

/-- sink.send(entry).unwrap() — succeeds while the receiver is alive,
otherwise panics. -/
def sendUnwrap (alive : Bool) (sent : List DataEntry) (e : DataEntry) : HResult :=
  if alive then .done (sent ++ [e]) else .panics sent

/-! The handlers of wiki_data_line.rs, embedded with explicit fact-list
state passing. Loops become structural recursions; the alive flag models
whether the channel receiver is still alive. -/

/-- The P131 loop of handle_place (lines 15-33): for each parent statement
passing is_object_active whose mainsnak has a datavalue id, send a
TerritorialEntityParent fact; otherwise warn and skip. -/
def placeLoop (objId : String) (now : Int) (alive : Bool) :
    List Json → List DataEntry → HResult
  | [], sent => .done sent
  | parent :: rest, sent =>
    if is_object_active (getQualifiers parent) now then
      match mainsnakId parent with
      | some pid =>
        (send alive sent (.TerritorialEntityParent objId pid)).andThen
          (placeLoop objId now alive rest)
      | none => placeLoop objId now alive rest sent
    else placeLoop objId now alive rest sent

/-- handle_place (lines 13-35): both human settlements and territorial
entities. The id lookup unwraps (panics when absent). -/
def handle_place (obj : Json) (now : Int) (alive : Bool)
    (sent : List DataEntry) : HResult :=
  match idOf obj with
  | none => .panics sent
  | some objId =>
    match claimsArr obj "P131" with
    | some parents => placeLoop objId now alive parents sent
    | none => .done sent

/-- The P37/P2936 loop of handle_territorial_entity (lines 63-84): skip
statements whose snaktype is not value or whose qualifiers are inactive;
send one ObjectLanguage per surviving statement with a datavalue id, the
index counting survivors only. -/
def teLangLoop (objId : String) (now : Int) (alive : Bool) :
    List Json → Nat → List DataEntry → HResult
  | [], _, sent => .done sent
  | lang :: rest, idx, sent =>
    if mainsnakSnaktype lang ≠ some "value" then
      teLangLoop objId now alive rest idx sent
    else if !is_object_active (getQualifiers lang) now then
      teLangLoop objId now alive rest idx sent
    else
      match mainsnakId lang with
      | some langId =>
        (send alive sent (.ObjectLanguage objId langId idx)).andThen
          (teLangLoop objId now alive rest (idx + 1))
      | none => teLangLoop objId now alive rest idx sent

/-- The labels loop (lines 87-103 and 268-284): one ObjectLabel without
native order per label entry that decomposes into language and value
strings; entries of invalid type are skipped with a warning. -/
def labelsLoop (objId : String) (alive : Bool) :
    List (String × Json) → List DataEntry → HResult
  | [], sent => .done sent
  | (_, label) :: rest, sent =>
    match (label.get? "language").bind Json.asStr?,
          (label.get? "value").bind Json.asStr? with
    | some lang, some labelText =>
      (send alive sent (.ObjectLabel objId lang labelText none)).andThen
        (labelsLoop objId alive rest)
    | _, _ => labelsLoop objId alive rest sent

/-- Send the plain (no native order) labels of a record. -/
def sendLabels (obj : Json) (objId : String) (alive : Bool)
    (sent : List DataEntry) : HResult :=
  match (obj.get? "labels").bind Json.asFields? with
  | some fields => labelsLoop objId alive fields sent
  | none => .done sent

/-- handle_territorial_entity (lines 37-106). -/
def handle_territorial_entity (obj : Json) (is_2nd : Bool) (now : Int)
    (alive : Bool) (sent : List DataEntry) : HResult :=
  match idOf obj with
  | none => .panics sent
  | some objId =>
    let iso : Option String :=
      if is_2nd then (claimFirst obj "P300").bind mainsnakValueStr else none
    (send alive sent (.TerritorialEntity objId is_2nd iso)).andThen fun s1 =>
    (handle_place obj now alive s1).andThen fun s2 =>
    (match (claimsArr obj "P37").or (claimsArr obj "P2936") with
     | some langs => teLangLoop objId now alive langs 0 s2
     | none => .done s2).andThen fun s3 =>
    sendLabels obj objId alive s3

/-- handle_language (lines 108-121): emit a Language fact if the first
P424 statement has a concrete string value. -/
def handle_language (obj : Json) (alive : Bool) (sent : List DataEntry) :
    HResult :=
  match idOf obj with
  | none => .panics sent
  | some objId =>
    match (claimFirst obj "P424").bind mainsnakValueStr with
    | some code => send alive sent (.Language objId code)
    | none => .done sent

/-- The priority of a CityCountry fact (lines 143-148): the iteration
index as a u32 when a start qualifier was present, 1000 plus it otherwise. -/
def countryPriority (startPresent : Bool) (i : Nat) : Nat :=
  if startPresent then i % 2 ^ 32 else (1000 + i % 2 ^ 32) % 2 ^ 32

/-- The P17 country loop of handle_human_settlement (lines 135-163): skip
a statement if its start or end evaluation is explicitly Inactive;
otherwise send a CityCountry fact (with unwrap, hence a panic on send
failure) when the statement has a datavalue id, else warn and skip. -/
def countryLoop (objId : String) (now : Int) (alive : Bool) :
    List Json → Nat → List DataEntry → HResult
  | [], _, sent => .done sent
  | entry :: rest, i, sent =>
    let quals := getQualifiers entry
    let startActive := is_object_start_active quals now
    let endActive := is_object_end_active quals now
    if endActive = some false ∨ startActive = some false then
      countryLoop objId now alive rest (i + 1) sent
    else
      match mainsnakId entry with
      | some cid =>
        (sendUnwrap alive sent
            (.CityCountry objId cid (countryPriority startActive.isSome i))).andThen
          (countryLoop objId now alive rest (i + 1))
      | none => countryLoop objId now alive rest (i + 1) sent

/-- parse_quantity (lines 507-523): keep a character unless it is
whitespace, a comma, a dot or a plus sign. -/
def should_keep_char (c : Char) : Bool :=
  if c.isWhitespace then false
  else if c = ',' ∨ c = '.' ∨ c = '+' then false
  else true

/-- Model of the Rust u64 FromStr parse: an optional leading plus sign,
then decimal digits, rejecting the empty string and u64 overflow. -/
def parse_u64 (s : String) : Option Nat :=
  let cs := match s.toList with
    | '+' :: rest => rest
    | cs => cs
  match cs with
  | [] => none
  | _ =>
    match parseDigitsAux cs 0 with
    | some m => if m < 2 ^ 64 then some m else none
    | none => none

/-- parse_quantity (lines 507-523): if the string holds any dropped
character, filter those out and parse the rest, else parse directly. -/
def parse_quantity (n : String) : Option Nat :=
  if n.toList.any (fun c => !should_keep_char c) then
    parse_u64 (String.mk (n.toList.filter should_keep_char))
  else
    parse_u64 n

/-- The candidate-amount extraction of the population loop (lines
218-236): the amount string parsed by parse_quantity, accepted only when
the unit string is "1". -/
def popUpdate (st : Option Nat × Option Int) (entry : Json) (t0 : Option Int) :
    Option Nat × Option Int :=
  let t1 := if (qualFirstObj entry "P518").isSome then none else t0
  let t2 := if (qualFirstObj entry "P1539").isSome then none else t1
  let t3 := if (qualFirstObj entry "P1540").isSome then none else t2
  match t3 with
  | none => st
  | some newTime =>
    if (match st.2 with | none => true | some old => decide (old ≤ newTime)) then
      match (mainsnakValueField entry "amount").bind Json.asStr?,
            (mainsnakValueField entry "unit").bind Json.asStr? with
      | some amount, some unit =>
        if unit ≠ "1" then st
        else
          match parse_quantity amount with
          | some v => (some v, some newTime)
          | none => st
      | _, _ => st
    else st

/-- One iteration of the P1082 population loop (lines 168-239): derive a
candidate time from the first P585 qualifier snak (skipping the entry when
its snaktype is not value), then update via popUpdate. -/
def popStep (st : Option Nat × Option Int) (entry : Json) :
    Option Nat × Option Int :=
  match qualFirstObj entry "P585" with
  | some pt =>
    if ((pt.get? "snaktype").bind Json.asStr?) ≠ some "value" then st
    else
      let t0 : Option Int :=
        match ((pt.get? "datavalue").bind (fun d => d.get? "value")).bind Json.asObj? with
        | some timeObj =>
          match (timeObj.get? "time").bind Json.asStr?,
                (timeObj.get? "timezone").bind Json.asNum? with
          | some time, some zone => parse_wikidata_time time zone
          | _, _ => none
        | none => none
      popUpdate st entry t0
  | none => popUpdate st entry none

/-- The selected population of a record: the P1082 fold (lines 165-240). -/
def popOf (obj : Json) : Option Nat :=
  (match claimsArr obj "P1082" with
   | some entries => entries.foldl popStep (none, none)
   | none => (none, none)).1

/-- The coordinate extraction (lines 242-259): from the first P625
statement only, when its snaktype is value and latitude and longitude are
numbers. -/
def latLon (obj : Json) : Option (JNum × JNum) :=
  match ((claimFirst obj "P625").bind (fun e => e.get? "mainsnak")).bind Json.asObj? with
  | some coords =>
    if ((coords.get? "snaktype").bind Json.asStr?) = some "value" then
      match (((coords.get? "datavalue").bind (fun d => d.get? "value")).bind
              (fun v => v.get? "latitude")).bind Json.asNum?,
            (((coords.get? "datavalue").bind (fun d => d.get? "value")).bind
              (fun v => v.get? "longitude")).bind Json.asNum? with
      | some lat, some lon => some (lat, lon)
      | _, _ => none
    else none
  | none => none

/-- The (language, text) decomposition of a native-label statement. -/
def nativeValue (claim : Json) : Option (String × String) :=
  match (mainsnakValueField claim "language").bind Json.asStr?,
        (mainsnakValueField claim "text").bind Json.asStr? with
  | some lang, some text => some (lang, text)
  | _, _ => none

/-- The P1705 native-label loop (lines 288-307): one ObjectLabel per
decomposable statement, native order counting valid entries only, with no
active-qualifier filter. -/
def nativeLoop1705 (objId : String) (alive : Bool) :
    List Json → Nat → List DataEntry → HResult
  | [], _, sent => .done sent
  | c :: rest, idx, sent =>
    match nativeValue c with
    | some lt =>
      (send alive sent (.ObjectLabel objId lt.1 lt.2 (some idx))).andThen
        (nativeLoop1705 objId alive rest (idx + 1))
    | none => nativeLoop1705 objId alive rest idx sent

/-- The P1448 official-name fallback loop (lines 309-330): like the P1705
loop but only over statements passing is_object_active. -/
def nativeLoop1448 (objId : String) (now : Int) (alive : Bool) :
    List Json → Nat → List DataEntry → HResult
  | [], _, sent => .done sent
  | c :: rest, idx, sent =>
    if !is_object_active (getQualifiers c) now then
      nativeLoop1448 objId now alive rest idx sent
    else
      match nativeValue c with
      | some lt =>
        (send alive sent (.ObjectLabel objId lt.1 lt.2 (some idx))).andThen
          (nativeLoop1448 objId now alive rest (idx + 1))
      | none => nativeLoop1448 objId now alive rest idx sent

/-- handle_human_settlement (lines 123-334). -/
def handle_human_settlement (obj : Json) (now : Int) (alive : Bool)
    (sent : List DataEntry) : HResult :=
  match idOf obj with
  | none => .panics sent
  | some objId =>
    match claimsArr obj "P17" with
    | none => send alive sent (.MissingP17 objId)
    | some countryEntries =>
      (handle_place obj now alive sent).andThen fun s1 =>
      (countryLoop objId now alive countryEntries 0 s1).andThen fun s2 =>
      (send alive s2 (.City objId (popOf obj)
          ((latLon obj).map Prod.fst) ((latLon obj).map Prod.snd))).andThen fun s3 =>
      (sendLabels obj objId alive s3).andThen fun s4 =>
      match claimsArr obj "P1705" with
      | some natives => nativeLoop1705 objId alive natives 0 s4
      | none =>
        match claimsArr obj "P1448" with
        | some officials => nativeLoop1448 objId now alive officials 0 s4
        | none => .done s4

/-- is_subclass_of (lines 464-497): true iff some P31 statement has a
datavalue id contained in the class set, passes is_object_active, and has
no P1366 qualifier entry. -/
def is_subclass_of (obj : Json) (classes : List String) (now : Int) : Bool :=
  match claimsArr obj "P31" with
  | some parents =>
    parents.any fun parent =>
      match mainsnakId parent with
      | some id =>
        classes.contains id &&
        is_object_active (getQualifiers parent) now &&
        (qualFirstObj parent "P1366").isNone
      | none => false
  | none => false

/-- The P576 dissolved test of handle_line (line 366): the P576 claims
array exists and is non-empty. -/
def dissolvedP576 (obj : Json) : Bool :=
  match claimsArr obj "P576" with
  | some a => !a.isEmpty
  | none => false

/-- The P1366 replaced-by test of handle_line (lines 353-364): the P1366
claims array is non-empty and no item carries a non-empty P518 qualifier
array. -/
def replacedBy (obj : Json) : Bool :=
  match claimsArr obj "P1366" with
  | some a =>
    let atp := a.any fun item =>
      match qualArr item "P518" with
      | some q => !q.isEmpty
      | none => false
    !a.isEmpty && !atp
  | none => false

/-- The P37 loop nested inside the P297 block of handle_line (lines
392-407): one ObjectLanguage per statement passing is_object_active that
has a datavalue id, the index counting survivors only. -/
def p297LangLoop (objId : String) (now : Int) (alive : Bool) :
    List Json → Nat → List DataEntry → HResult
  | [], _, sent => .done sent
  | lang :: rest, idx, sent =>
    if !is_object_active (getQualifiers lang) now then
      p297LangLoop objId now alive rest idx sent
    else
      match mainsnakId lang with
      | some langId =>
        (send alive sent (.ObjectLanguage objId langId idx)).andThen
          (p297LangLoop objId now alive rest (idx + 1))
      | none => p297LangLoop objId now alive rest idx sent

/-- The P297 block of handle_line (lines 376-408): when the record has a
P297 claims array, emit a Country fact from the first qualifier-active
statement with a string value (lowercased), then run the nested P37 loop. -/
def p297step (obj : Json) (objId : String) (now : Int) (alive : Bool)
    (sent : List DataEntry) : HResult :=
  match claimsArr obj "P297" with
  | none => .done sent
  | some codeEntries =>
    (match (codeEntries.find? fun e =>
              is_object_active (getQualifiers e) now).bind mainsnakValueStr with
     | some iso => send alive sent (.Country objId (toAsciiLower iso))
     | none => .done sent).andThen fun s1 =>
    match claimsArr obj "P37" with
    | some langs => p297LangLoop objId now alive langs 0 s1
    | none => .done s1

/-- The body of handle_line after JSON parsing and the id unwrap (lines
353-461): the global exclusion test, the P297 block, classification, and
conditional dispatch to the handlers. -/
def handleObj (obj : Json) (objId : String) (classes : Classes) (now : Int)
    (alive : Bool) : HResult :=
  if replacedBy obj || dissolvedP576 obj then .done []
  else
    (p297step obj objId now alive []).andThen fun s1 =>
    let is_te := is_subclass_of obj classes.territorial_entities now
    let is_hs := is_subclass_of obj classes.human_settlements now
    let is_ex := is_subclass_of obj classes.excluded now
    let is_lang := is_subclass_of obj classes.languages now
    (if is_te && !is_ex then
       handle_territorial_entity obj
         (is_subclass_of obj classes.second_level_admin_div now) now alive s1
     else .done s1).andThen fun s2 =>
    (if is_hs && !is_ex &&
        !(is_subclass_of obj classes.excluded_settlements now) then
       handle_human_settlement obj now alive s2
     else .done s2).andThen fun s3 =>
    if is_lang then handle_language obj alive s3 else .done s3

/-- Trailing-comma stripping of handle_line (lines 347-349). -/
def stripComma (line : String) : String :=
  if line.toList.getLast? = some ',' then String.mk line.toList.dropLast
  else line

/-- handle_line (lines 336-462): ignore lines of length at most one,
strip a trailing comma, parse the JSON (an Err on failure), unwrap the id
(a panic when absent), then run the record pipeline. -/
def handle_line (line : String) (classes : Classes) (now : Int)
    (alive : Bool) : HResult :=
  if line.length ≤ 1 then .done []
  else
    match from_str (stripComma line) with
    | none => .fail .json []
    | some obj =>
      match idOf obj with
      | none => .panics []
      | some objId => handleObj obj objId classes now alive

/-- A class index with every set empty. -/
def emptyClasses : Classes := ⟨[], [], [], [], [], []⟩

/-! Pure characterizations of the handler loops when the channel receiver
is alive: each loop appends a fact list that is a pure function of its
inputs. These are used to state and prove the claims. -/

/-- The facts emitted by the P131 place loop. -/
def placeFacts (objId : String) (now : Int) (parents : List Json) :
    List DataEntry :=
  parents.filterMap fun p =>
    if is_object_active (getQualifiers p) now then
      (mainsnakId p).map fun pid => DataEntry.TerritorialEntityParent objId pid
    else none

/-- The facts emitted by handle_place. -/
def placePart (obj : Json) (objId : String) (now : Int) : List DataEntry :=
  match claimsArr obj "P131" with
  | some parents => placeFacts objId now parents
  | none => []

/-- The facts emitted by the P17 country loop, starting at index i. -/
def countryFacts (objId : String) (now : Int) :
    List Json → Nat → List DataEntry
  | [], _ => []
  | entry :: rest, i =>
    let startActive := is_object_start_active (getQualifiers entry) now
    if is_object_end_active (getQualifiers entry) now = some false ∨
       startActive = some false then
      countryFacts objId now rest (i + 1)
    else
      match mainsnakId entry with
      | some cid =>
        DataEntry.CityCountry objId cid (countryPriority startActive.isSome i) ::
          countryFacts objId now rest (i + 1)
      | none => countryFacts objId now rest (i + 1)

/-- The facts emitted by the plain labels loop. -/
def labelFacts (objId : String) (fields : List (String × Json)) :
    List DataEntry :=
  fields.filterMap fun p =>
    match (p.2.get? "language").bind Json.asStr?,
          (p.2.get? "value").bind Json.asStr? with
    | some lang, some labelText =>
      some (DataEntry.ObjectLabel objId lang labelText none)
    | _, _ => none

/-- The plain labels emitted for a record. -/
def labelPart (obj : Json) (objId : String) : List DataEntry :=
  match (obj.get? "labels").bind Json.asFields? with
  | some fields => labelFacts objId fields
  | none => []

/-- The facts emitted by the P1705 native-label loop from index idx. -/
def native1705Facts (objId : String) : List Json → Nat → List DataEntry
  | [], _ => []
  | c :: rest, idx =>
    match nativeValue c with
    | some lt =>
      DataEntry.ObjectLabel objId lt.1 lt.2 (some idx) ::
        native1705Facts objId rest (idx + 1)
    | none => native1705Facts objId rest idx

/-- The facts emitted by the P1448 official-name loop from index idx. -/
def native1448Facts (objId : String) (now : Int) :
    List Json → Nat → List DataEntry
  | [], _ => []
  | c :: rest, idx =>
    if !is_object_active (getQualifiers c) now then
      native1448Facts objId now rest idx
    else
      match nativeValue c with
      | some lt =>
        DataEntry.ObjectLabel objId lt.1 lt.2 (some idx) ::
          native1448Facts objId now rest (idx + 1)
      | none => native1448Facts objId now rest idx

/-- The native-ordered labels emitted for a record: the P1705 property when
its claims array exists (even empty), else the P1448 fallback. -/
def nativePart (obj : Json) (objId : String) (now : Int) : List DataEntry :=
  match claimsArr obj "P1705" with
  | some natives => native1705Facts objId natives 0
  | none =>
    match claimsArr obj "P1448" with
    | some officials => native1448Facts objId now officials 0
    | none => []

/-- The single City fact of a record. -/
def cityFact (obj : Json) (objId : String) : DataEntry :=
  .City objId (popOf obj) ((latLon obj).map Prod.fst) ((latLon obj).map Prod.snd)

/-- All facts emitted by handle_human_settlement for a record whose P17
claims array is entries. -/
def hsFacts (obj : Json) (objId : String) (now : Int) (entries : List Json) :
    List DataEntry :=
  placePart obj objId now ++ countryFacts objId now entries 0 ++
    [cityFact obj objId] ++ labelPart obj objId ++ nativePart obj objId now

/-- The qualifier-active P37 statements that carry a datavalue id. -/
def p37Survivors (now : Int) (langs : List Json) : List String :=
  langs.filterMap fun l =>
    if is_object_active (getQualifiers l) now then mainsnakId l else none

/-- The Country fact emitted by the P297 block. -/
def countryPart (obj : Json) (objId : String) (now : Int) : List DataEntry :=
  match claimsArr obj "P297" with
  | none => []
  | some es =>
    match (es.find? fun e =>
            is_object_active (getQualifiers e) now).bind mainsnakValueStr with
    | some iso => [.Country objId (toAsciiLower iso)]
    | none => []

/-- The ObjectLanguage facts emitted by the P37 loop nested in the P297
block: nothing when the record has no P297 claims array. -/
def p37Part (obj : Json) (objId : String) (now : Int) : List DataEntry :=
  match claimsArr obj "P297" with
  | none => []
  | some _ =>
    match claimsArr obj "P37" with
    | some langs =>
      (List.enumFrom 0 (p37Survivors now langs)).map fun p =>
        DataEntry.ObjectLanguage objId p.2 p.1
    | none => []

theorem placeLoop_done (objId : String) (now : Int) (parents : List Json) :
    ∀ sent, placeLoop objId now true parents sent =
      .done (sent ++ placeFacts objId now parents) := by
  induction parents with
  | nil => intro sent; simp [placeLoop, placeFacts]
  | cons p rest ih =>
    intro sent
    by_cases hq : is_object_active (getQualifiers p) now
    · cases hm : mainsnakId p with
      | some pid =>
        simp [placeLoop, hq, hm, send, HResult.andThen, ih, placeFacts,
          List.filterMap_cons]
      | none =>
        simp [placeLoop, hq, hm, ih, placeFacts, List.filterMap_cons]
    · simp [placeLoop, hq, ih, placeFacts, List.filterMap_cons]

theorem handle_place_done (obj : Json) (objId : String) (now : Int)
    (sent : List DataEntry) (hid : idOf obj = some objId) :
    handle_place obj now true sent = .done (sent ++ placePart obj objId now) := by
  unfold handle_place placePart
  rw [hid]
  cases h : claimsArr obj "P131" with
  | some parents => simp [placeLoop_done]
  | none => simp

theorem countryLoop_done (objId : String) (now : Int) (entries : List Json) :
    ∀ i sent, countryLoop objId now true entries i sent =
      .done (sent ++ countryFacts objId now entries i) := by
  induction entries with
  | nil => intro i sent; simp [countryLoop, countryFacts]
  | cons e rest ih =>
    intro i sent
    by_cases hskip : is_object_end_active (getQualifiers e) now = some false ∨
        is_object_start_active (getQualifiers e) now = some false
    · simp [countryLoop, countryFacts, hskip, ih]
    · cases hm : mainsnakId e with
      | some cid =>
        simp [countryLoop, countryFacts, hskip, hm, sendUnwrap,
          HResult.andThen, ih]
      | none => simp [countryLoop, countryFacts, hskip, hm, ih]

theorem labelsLoop_done (objId : String) (fields : List (String × Json)) :
    ∀ sent, labelsLoop objId true fields sent =
      .done (sent ++ labelFacts objId fields) := by
  induction fields with
  | nil => intro sent; simp [labelsLoop, labelFacts]
  | cons p rest ih =>
    intro sent
    cases hl : (p.2.get? "language").bind Json.asStr? with
    | some lang =>
      cases hv : (p.2.get? "value").bind Json.asStr? with
      | some labelText =>
        simp [labelsLoop, labelFacts, List.filterMap_cons, hl, hv, send,
          HResult.andThen, ih]
      | none => simp [labelsLoop, labelFacts, List.filterMap_cons, hl, hv, ih]
    | none => simp [labelsLoop, labelFacts, List.filterMap_cons, hl, ih]

theorem sendLabels_done (obj : Json) (objId : String)
    (sent : List DataEntry) :
    sendLabels obj objId true sent = .done (sent ++ labelPart obj objId) := by
  unfold sendLabels labelPart
  cases h : (obj.get? "labels").bind Json.asFields? with
  | some fields => simp [labelsLoop_done]
  | none => simp

theorem nativeLoop1705_done (objId : String) (cs : List Json) :
    ∀ idx sent, nativeLoop1705 objId true cs idx sent =
      .done (sent ++ native1705Facts objId cs idx) := by
  induction cs with
  | nil => intro idx sent; simp [nativeLoop1705, native1705Facts]
  | cons c rest ih =>
    intro idx sent
    cases hv : nativeValue c with
    | some lt =>
      simp [nativeLoop1705, native1705Facts, hv, send, HResult.andThen, ih]
    | none => simp [nativeLoop1705, native1705Facts, hv, ih]

theorem nativeLoop1448_done (objId : String) (now : Int) (cs : List Json) :
    ∀ idx sent, nativeLoop1448 objId now true cs idx sent =
      .done (sent ++ native1448Facts objId now cs idx) := by
  induction cs with
  | nil => intro idx sent; simp [nativeLoop1448, native1448Facts]
  | cons c rest ih =>
    intro idx sent
    by_cases hq : is_object_active (getQualifiers c) now
    · cases hv : nativeValue c with
      | some lt =>
        simp [nativeLoop1448, native1448Facts, hq, hv, send,
          HResult.andThen, ih]
      | none => simp [nativeLoop1448, native1448Facts, hq, hv, ih]
    · simp [nativeLoop1448, native1448Facts, hq, ih]

theorem hs_done (obj : Json) (objId : String) (now : Int)
    (entries : List Json) (sent : List DataEntry)
    (hid : idOf obj = some objId)
    (hP17 : claimsArr obj "P17" = some entries) :
    handle_human_settlement obj now true sent =
      .done (sent ++ hsFacts obj objId now entries) := by
  unfold handle_human_settlement
  rw [hid, hP17]
  rw [handle_place_done obj objId now sent hid]
  simp only [HResult.andThen, countryLoop_done, send, if_pos rfl, if_true]
  rw [sendLabels_done]
  simp only [HResult.andThen]
  unfold hsFacts nativePart
  cases h5 : claimsArr obj "P1705" with
  | some natives =>
    simp [nativeLoop1705_done, cityFact, List.append_assoc]
  | none =>
    cases h8 : claimsArr obj "P1448" with
    | some officials =>
      simp [nativeLoop1448_done, cityFact, List.append_assoc]
    | none => simp [cityFact, List.append_assoc]

theorem p297LangLoop_done (objId : String) (now : Int) (langs : List Json) :
    ∀ idx sent, p297LangLoop objId now true langs idx sent =
      .done (sent ++ (List.enumFrom idx (p37Survivors now langs)).map
        fun p => DataEntry.ObjectLanguage objId p.2 p.1) := by
  induction langs with
  | nil => intro idx sent; simp [p297LangLoop, p37Survivors]
  | cons lang rest ih =>
    intro idx sent
    by_cases hq : is_object_active (getQualifiers lang) now
    · cases hm : mainsnakId lang with
      | some langId =>
        simp only [p297LangLoop, hq, Bool.not_true, Bool.false_eq_true,
          if_false, hm, send, if_pos rfl, if_true, HResult.andThen,
          p37Survivors, List.filterMap_cons, if_true, hq]
        rw [ih]
        simp [p37Survivors, List.enumFrom]
      | none =>
        simp only [p297LangLoop, hq, Bool.not_true, Bool.false_eq_true,
          if_false, hm]
        rw [ih]
        simp [p37Survivors, List.filterMap_cons, hq, hm]
    · simp only [p297LangLoop, hq, Bool.not_false, if_true]
      rw [ih]
      simp [p37Survivors, List.filterMap_cons, hq]

theorem p297step_done (obj : Json) (objId : String) (now : Int)
    (sent : List DataEntry) :
    p297step obj objId now true sent =
      .done (sent ++ countryPart obj objId now ++ p37Part obj objId now) := by
  unfold p297step countryPart p37Part
  cases h : claimsArr obj "P297" with
  | none => simp
  | some es =>
    dsimp only
    cases hc : (es.find? fun e =>
        is_object_active (getQualifiers e) now).bind mainsnakValueStr with
    | some iso =>
      cases h37 : claimsArr obj "P37" with
      | some langs =>
        simp only [send, if_pos rfl, if_true, HResult.andThen]
        rw [p297LangLoop_done]
      | none => simp [send, HResult.andThen]
    | none =>
      cases h37 : claimsArr obj "P37" with
      | some langs =>
        simp only [HResult.andThen]
        rw [p297LangLoop_done]
        simp
      | none => simp [HResult.andThen]

/-! The population selection (claim C6): factor the population loop body
through a per-statement derived time and candidate value, as the
specification words it. -/

/-- The derived candidate time of a population statement: the time of its
first P585 qualifier snak, discarded when the snaktype is not value, the
time is missing or malformed, or the statement carries a P518, P1539 or
P1540 qualifier entry. -/
def popEntryTime (entry : Json) : Option Int :=
  let t0 : Option Int :=
    match qualFirstObj entry "P585" with
    | some pt =>
      if ((pt.get? "snaktype").bind Json.asStr?) ≠ some "value" then none
      else
        match ((pt.get? "datavalue").bind (fun d => d.get? "value")).bind Json.asObj? with
        | some timeObj =>
          match (timeObj.get? "time").bind Json.asStr?,
                (timeObj.get? "timezone").bind Json.asNum? with
          | some time, some zone => parse_wikidata_time time zone
          | _, _ => none
        | none => none
    | none => none
  if (qualFirstObj entry "P518").isSome ∨ (qualFirstObj entry "P1539").isSome ∨
     (qualFirstObj entry "P1540").isSome then none
  else t0

/-- The candidate amount of a population statement: its amount string
parsed by parse_quantity, accepted only with the dimensionless unit. -/
def popEntryValue (entry : Json) : Option Nat :=
  match (mainsnakValueField entry "amount").bind Json.asStr?,
        (mainsnakValueField entry "unit").bind Json.asStr? with
  | some amount, some unit => if unit ≠ "1" then none else parse_quantity amount
  | _, _ => none

theorem popValue_match (st : Option Nat × Option Int) (entry : Json)
    (nt : Int) :
    (match (mainsnakValueField entry "amount").bind Json.asStr?,
           (mainsnakValueField entry "unit").bind Json.asStr? with
     | some amount, some unit =>
       if unit ≠ "1" then st
       else
         match parse_quantity amount with
         | some v => (some v, some nt)
         | none => st
     | _, _ => st) =
      match popEntryValue entry with
      | some v => (some v, some nt)
      | none => st := by
  unfold popEntryValue
  cases ha : (mainsnakValueField entry "amount").bind Json.asStr? with
  | none => simp
  | some amount =>
    cases hu : (mainsnakValueField entry "unit").bind Json.asStr? with
    | none => simp
    | some unit =>
      by_cases h : unit = "1"
      · simp only [h]
        cases hp : parse_quantity amount <;> simp [hp]
      · simp [h]

theorem popUpdate_factor (st : Option Nat × Option Int) (entry : Json)
    (t0 : Option Int) :
    popUpdate st entry t0 =
      match (if (qualFirstObj entry "P518").isSome ∨
                (qualFirstObj entry "P1539").isSome ∨
                (qualFirstObj entry "P1540").isSome then none else t0) with
      | none => st
      | some nt =>
        if (match st.2 with | none => true | some old => decide (old ≤ nt)) then
          match popEntryValue entry with
          | some v => (some v, some nt)
          | none => st
        else st := by
  unfold popUpdate
  by_cases h1 : (qualFirstObj entry "P518").isSome
  · simp [h1]
  · by_cases h2 : (qualFirstObj entry "P1539").isSome
    · simp [h1, h2]
    · by_cases h3 : (qualFirstObj entry "P1540").isSome
      · simp [h1, h2, h3]
      · cases t0 with
        | none => simp [h1, h2, h3]
        | some nt =>
          simp only [h1, h2, h3, or_self, or_false, false_or]
          show (if (match st.2 with | none => true | some old => decide (old ≤ nt)) then
            (match (mainsnakValueField entry "amount").bind Json.asStr?,
                   (mainsnakValueField entry "unit").bind Json.asStr? with
             | some amount, some unit =>
               if unit ≠ "1" then st
               else
                 match parse_quantity amount with
                 | some v => (some v, some nt)
                 | none => st
             | _, _ => st) else st) =
            (if (match st.2 with | none => true | some old => decide (old ≤ nt)) then
              (match popEntryValue entry with
               | some v => (some v, some nt)
               | none => st) else st)
          split
          · exact popValue_match st entry nt
          · rfl

theorem popStep_factor (st : Option Nat × Option Int) (entry : Json) :
    popStep st entry =
      match popEntryTime entry with
      | none => st
      | some nt =>
        if (match st.2 with | none => true | some old => decide (old ≤ nt)) then
          match popEntryValue entry with
          | some v => (some v, some nt)
          | none => st
        else st := by
  unfold popStep popEntryTime
  cases h585 : qualFirstObj entry "P585" with
  | none => rw [popUpdate_factor]
  | some pt =>
    by_cases hsnak : ((pt.get? "snaktype").bind Json.asStr?) ≠ some "value"
    · simp [hsnak]
    · simp only [hsnak, if_false, ite_false]
      rw [popUpdate_factor]

/-- A population statement carrying a P518, P1539 or P1540 qualifier entry
never updates the selection state. -/
theorem popStep_qual_noop (st : Option Nat × Option Int) (entry : Json)
    (h : (qualFirstObj entry "P518").isSome ∨
         (qualFirstObj entry "P1539").isSome ∨
         (qualFirstObj entry "P1540").isSome) :
    popStep st entry = st := by
  rw [popStep_factor]
  have ht : popEntryTime entry = none := by
    unfold popEntryTime
    simp [h]
  rw [ht]

/-! Fact-shape predicates and lemmas about which handler segment can emit
which fact variant. -/

/-- Is the fact a City fact? -/
def isCity : DataEntry → Bool
  | .City _ _ _ _ => true
  | _ => false

/-- Is the fact a CityCountry fact? -/
def isCityCountry : DataEntry → Bool
  | .CityCountry _ _ _ => true
  | _ => false

/-- Is the fact a MissingP17 fact? -/
def isMissingP17Fact : DataEntry → Bool
  | .MissingP17 _ => true
  | _ => false

/-- Is the fact an ObjectLabel carrying a native order? -/
def isNativeLabel : DataEntry → Bool
  | .ObjectLabel _ _ _ (some _) => true
  | _ => false

theorem placePart_shape (obj : Json) (objId : String) (now : Int) :
    ∀ f ∈ placePart obj objId now, ∃ a b,
      f = DataEntry.TerritorialEntityParent a b := by
  intro f hf
  unfold placePart at hf
  rcases h : claimsArr obj "P131" with _ | parents <;> rw [h] at hf
  · simp at hf
  · unfold placeFacts at hf
    rw [List.mem_filterMap] at hf
    obtain ⟨p, _, hp⟩ := hf
    split at hp
    · rw [Option.map_eq_some'] at hp
      obtain ⟨pid, _, hpid⟩ := hp
      exact ⟨objId, pid, hpid.symm⟩
    · exact absurd hp (by simp)

theorem countryFacts_shape (objId : String) (now : Int) :
    ∀ (entries : List Json) (i : Nat), ∀ f ∈ countryFacts objId now entries i,
      ∃ a b c, f = DataEntry.CityCountry a b c := by
  intro entries
  induction entries with
  | nil => intro i f hf; simp [countryFacts] at hf
  | cons e rest ih =>
    intro i f hf
    rw [countryFacts] at hf
    by_cases hc : is_object_end_active (getQualifiers e) now = some false ∨
        is_object_start_active (getQualifiers e) now = some false
    · simp only [hc, ite_true, if_true] at hf
      exact ih (i + 1) f hf
    · simp only [hc, ite_false, if_false] at hf
      cases hm : mainsnakId e <;> rw [hm] at hf
      · exact ih (i + 1) f hf
      · rcases List.mem_cons.mp hf with h | h
        · exact ⟨_, _, _, h⟩
        · exact ih (i + 1) f h

theorem labelPart_shape (obj : Json) (objId : String) :
    ∀ f ∈ labelPart obj objId, ∃ a b c,
      f = DataEntry.ObjectLabel a b c none := by
  intro f hf
  unfold labelPart at hf
  rcases h : (obj.get? "labels").bind Json.asFields? with _ | fields <;>
    rw [h] at hf
  · simp at hf
  · unfold labelFacts at hf
    rw [List.mem_filterMap] at hf
    obtain ⟨p, _, hp⟩ := hf
    split at hp
    · rename_i lang labelText _ _
      exact ⟨objId, lang, labelText, by injection hp with h; exact h.symm⟩
    · exact absurd hp (by simp)

theorem native1705Facts_shape (objId : String) :
    ∀ (cs : List Json) (idx : Nat), ∀ f ∈ native1705Facts objId cs idx,
      ∃ a b c i, f = DataEntry.ObjectLabel a b c (some i) := by
  intro cs
  induction cs with
  | nil => intro idx f hf; simp [native1705Facts] at hf
  | cons c rest ih =>
    intro idx f hf
    unfold native1705Facts at hf
    split at hf
    · rcases List.mem_cons.mp hf with h | h
      · exact ⟨_, _, _, _, h⟩
      · exact ih (idx + 1) f h
    · exact ih idx f hf

theorem native1448Facts_shape (objId : String) (now : Int) :
    ∀ (cs : List Json) (idx : Nat), ∀ f ∈ native1448Facts objId now cs idx,
      ∃ a b c i, f = DataEntry.ObjectLabel a b c (some i) := by
  intro cs
  induction cs with
  | nil => intro idx f hf; simp [native1448Facts] at hf
  | cons c rest ih =>
    intro idx f hf
    unfold native1448Facts at hf
    split at hf
    · exact ih idx f hf
    · split at hf
      · rcases List.mem_cons.mp hf with h | h
        · exact ⟨_, _, _, _, h⟩
        · exact ih (idx + 1) f h
      · exact ih idx f hf

theorem nativePart_shape (obj : Json) (objId : String) (now : Int) :
    ∀ f ∈ nativePart obj objId now, ∃ a b c i,
      f = DataEntry.ObjectLabel a b c (some i) := by
  intro f hf
  unfold nativePart at hf
  rcases h5 : claimsArr obj "P1705" with _ | natives <;> rw [h5] at hf
  · rcases h8 : claimsArr obj "P1448" with _ | officials <;> rw [h8] at hf
    · simp at hf
    · exact native1448Facts_shape objId now officials 0 f hf
  · exact native1705Facts_shape objId natives 0 f hf

/-! Concrete records used by counterexamples and witnesses. -/

/-- A P1366 statement with no qualifiers (a full, unqualified replacement
in the words of the claim). -/
def c1rep0 : Json := .obj []

/-- A P1366 statement qualified applies-to-part (P518). -/
def c1rep1 : Json := .obj [("qualifiers", .obj [("P518", .arr [Json.obj []])])]

/-- A P297 statement with the string value US. -/
def c1iso : Json :=
  .obj [("mainsnak", .obj [("datavalue", .obj [("value", .str "US")])])]

/-- A record with a mixed P1366 property (one unqualified statement, one
P518-qualified statement) and a P297 country-code property. -/
def c1obj : Json :=
  .obj [("id", .str "Q1"),
        ("claims", .obj [("P1366", .arr [c1rep0, c1rep1]),
                         ("P297", .arr [c1iso])])]

/-- A record whose only property is a non-empty P576 dissolved claim. -/
def w1obj : Json :=
  .obj [("id", .str "Q9"), ("claims", .obj [("P576", .arr [Json.obj []])])]

/-- A P37 statement with a datavalue id and no qualifiers. -/
def c4lang : Json :=
  .obj [("mainsnak", .obj [("datavalue", .obj [("value",
     .obj [("id", .str "Q150")])])])]

/-- A record with one active official-language statement and no P297
country-code property. -/
def c4obj : Json := .obj [("id", .str "Q2"), ("claims", .obj [("P37", .arr [c4lang])])]

/-- A class index whose human-settlement set is the class CITY. -/
def hsClasses : Classes := ⟨[], ["CITY"], [], [], [], []⟩

/-- A record classified as a human settlement (instance of CITY) with one
P17 country statement referencing Q16. -/
def c5obj : Json :=
  .obj [("id", .str "Q5"),
        ("claims", .obj [
          ("P31", .arr [Json.obj [("mainsnak", .obj [("datavalue",
             .obj [("value", .obj [("id", .str "CITY")])])])]]),
          ("P17", .arr [Json.obj [("mainsnak", .obj [("datavalue",
             .obj [("value", .obj [("id", .str "Q16")])])])]])])]

/-- A record classified as a human settlement whose single P17 statement
has no mainsnak at all (a statement with no resolvable country id). -/
def c8obj : Json :=
  .obj [("id", .str "Q8"), ("claims", .obj [("P17", .arr [Json.obj []])])]

/-- Claim C1 counterexample: this record has a non-empty replaced-by
(P1366) property in which the first statement is not qualified
applies-to-part (P518) — the condition of the claim — yet handle_line does
not drop it: the record still emits its Country fact, because the other
P1366 statement carries a P518 qualifier and that alone cancels the
exclusion in the code. -/
theorem claim1_cx :
    claimsArr c1obj "P1366" = some [c1rep0, c1rep1] ∧
    qualArr c1rep0 "P518" = none ∧
    handleObj c1obj "Q1" emptyClasses 0 true =
      .done [DataEntry.Country "Q1" "us"] := ⟨rfl, rfl, by decide⟩

/-- Claim C1 (amended): a parsed record is dropped entirely (zero facts)
if it has a dissolved (P576) property with any statement, or a non-empty
replaced-by (P1366) property in which no statement carries an
applies-to-part (P518) qualifier entry; a single P518-qualified statement
cancels the replaced-by exclusion. -/
theorem claim1_amended (obj : Json) (objId : String) (classes : Classes)
    (now : Int) (alive : Bool)
    (h : (∃ a, claimsArr obj "P576" = some a ∧ a ≠ []) ∨
         (∃ a, claimsArr obj "P1366" = some a ∧ a ≠ [] ∧
            ∀ item ∈ a, qualArr item "P518" = none ∨
              qualArr item "P518" = some [])) :
    handleObj obj objId classes now alive = .done [] := by
  have hex : (replacedBy obj || dissolvedP576 obj) = true := by
    rcases h with ⟨a, ha, hne⟩ | ⟨a, ha, hne, hall⟩
    · have hd : dissolvedP576 obj = true := by
        unfold dissolvedP576
        rw [ha]
        simpa [List.isEmpty_eq_false] using hne
      simp [hd]
    · have hanyf : (a.any fun item =>
          match qualArr item "P518" with
          | some q => !q.isEmpty
          | none => false) = false := by
        rw [List.any_eq_false]
        intro item hitem
        rcases hall item hitem with hq | hq <;> simp [hq]
      have hemp : a.isEmpty = false := List.isEmpty_eq_false.mpr hne
      have hr : replacedBy obj = true := by
        unfold replacedBy
        rw [ha]
        simp [hanyf, hemp]
      simp [hr]
  unfold handleObj
  simp [hex]

/-- Claim C1 witness: a record carrying a non-empty dissolved property is
dropped with zero facts. -/
theorem claim1_witness : handleObj w1obj "Q9" emptyClasses 0 true = .done [] :=
  claim1_amended w1obj "Q9" emptyClasses 0 true (Or.inl ⟨[Json.obj []], rfl, by simp⟩)

/-- Claim C2 counterexample: the quantity string 12.5 is not rejected;
the dot is stripped as a thousands separator and the digits concatenate to
125. -/
theorem claim2_cx : parse_quantity "12.5" = some 125 := by decide

/-- Claim C2 (amended): the quantity parser maps 1,234 to 1234, +56 to
56, a whitespace-padded 12 to 12, rejects abc, and accepts 12.5 as 125
(separator characters are stripped and the remaining digits parsed). -/
theorem claim2_amended :
    parse_quantity "1,234" = some 1234 ∧ parse_quantity "+56" = some 56 ∧
    parse_quantity " 12 " = some 12 ∧ parse_quantity "abc" = none ∧
    parse_quantity "12.5" = some 125 := by
  refine ⟨by decide, by decide, by decide, by decide, by decide⟩

/-- Claim C3 counterexample: a line that parses as a JSON object without
an identifier makes handle_line panic (the expect on the id lookup)
instead of yielding a line-local error. -/
theorem claim3_cx :
    from_str "\x7b\"a\":1\x7d" = some (Json.obj [("a", Json.num ⟨1, 0⟩)]) ∧
    handle_line "\x7b\"a\":1\x7d" emptyClasses 0 true = .panics [] :=
  ⟨rfl, by decide⟩

/-- Claim C3 (amended): a short line yields no facts; a line that fails to
parse yields a line-local JSON error, never a panic; but a line parsing to
a JSON value without a string identifier panics rather than erroring. -/
theorem claim3_amended (line : String) (classes : Classes) (now : Int)
    (alive : Bool) :
    (line.length ≤ 1 → handle_line line classes now alive = .done []) ∧
    (¬ line.length ≤ 1 → from_str (stripComma line) = none →
      handle_line line classes now alive = .fail .json []) ∧
    (∀ obj, ¬ line.length ≤ 1 → from_str (stripComma line) = some obj →
      idOf obj = none → handle_line line classes now alive = .panics []) := by
  refine ⟨fun h => ?_, fun h hf => ?_, fun obj h hf hid => ?_⟩
  · simp [handle_line, h]
  · simp [handle_line, h, hf]
  · simp [handle_line, h, hf, hid]

/-- Claim C3 witness: an unparseable two-character line yields the JSON
error. -/
theorem claim3_witness : handle_line "xx" emptyClasses 0 true = .fail .json [] :=
  (claim3_amended "xx" emptyClasses 0 true).2.1 (by decide) rfl

/-- Claim C5: with the channel receiver gone, the CityCountry send is the
one fact send performed with unwrap, so the worker panics on it instead of
returning the record-local sink error; with a live receiver the same
record proceeds normally. This witnesses the divergence between the code
(panic) and the specified behavior (record-local error). -/
theorem claim5_send_panic :
    handleObj c5obj "Q5" hsClasses 0 false = .panics [] ∧
    handleObj c5obj "Q5" hsClasses 0 true =
      .done [DataEntry.CityCountry "Q5" "Q16" 1000,
             DataEntry.City "Q5" none none none] := ⟨by decide, by decide⟩

theorem subclassElem_iff (st : Json) (classes : List String) (now : Int) :
    (match mainsnakId st with
     | some id =>
       classes.contains id && is_object_active (getQualifiers st) now &&
         (qualFirstObj st "P1366").isNone
     | none => false) = true ↔
    ∃ id, mainsnakId st = some id ∧ classes.contains id = true ∧
      is_object_active (getQualifiers st) now = true ∧
      qualFirstObj st "P1366" = none := by
  cases hm : mainsnakId st with
  | none => simp [hm]
  | some id =>
    simp [hm, Bool.and_eq_true, Option.isNone_iff_eq_none, and_assoc]

/-- Claim C7: is_subclass_of returns true iff some P31 instance-of
statement references a class id contained in the set, passes the
active-qualifier test, and carries no P1366 replaced-by qualifier entry. -/
theorem claim7_subclass (obj : Json) (classes : List String) (now : Int) :
    is_subclass_of obj classes now = true ↔
    ∃ parents, claimsArr obj "P31" = some parents ∧
      ∃ st ∈ parents, ∃ id, mainsnakId st = some id ∧
        classes.contains id = true ∧
        is_object_active (getQualifiers st) now = true ∧
        qualFirstObj st "P1366" = none := by
  unfold is_subclass_of
  cases h : claimsArr obj "P31" with
  | none => simp
  | some parents =>
    dsimp only
    rw [List.any_eq_true]
    constructor
    · rintro ⟨st, hst, hp⟩
      exact ⟨parents, rfl, st, hst, (subclassElem_iff st classes now).mp hp⟩
    · rintro ⟨ps, hps, st, hst, hex⟩
      injection hps with hps
      subst hps
      exact ⟨st, hst, (subclassElem_iff st classes now).mpr hex⟩

theorem countryFacts_enum (objId : String) (now : Int) :
    ∀ (entries : List Json) (i : Nat),
      countryFacts objId now entries i = (List.enumFrom i entries).filterMap
        (fun p =>
          if is_object_end_active (getQualifiers p.2) now = some false ∨
             is_object_start_active (getQualifiers p.2) now = some false then
            none
          else (mainsnakId p.2).map fun cid =>
            DataEntry.CityCountry objId cid
              (if (is_object_start_active (getQualifiers p.2) now).isSome
               then p.1 % 2 ^ 32
               else (1000 + p.1 % 2 ^ 32) % 2 ^ 32)) := by
  intro entries
  induction entries with
  | nil => intro i; simp [countryFacts]
  | cons e rest ih =>
    intro i
    rw [countryFacts,
      show List.enumFrom i (e :: rest) = (i, e) :: List.enumFrom (i + 1) rest
        from rfl,
      List.filterMap_cons]
    by_cases hc : is_object_end_active (getQualifiers e) now = some false ∨
        is_object_start_active (getQualifiers e) now = some false
    · simp [hc, ih]
    · cases hm : mainsnakId e <;> simp [hc, hm, ih, countryPriority]

/-- Claim C4 counterexample: a record with a qualifier-active official
language (P37) statement but no ISO-country-code (P297) property, and no
classification match, emits no ObjectLanguage fact at all: the step-3 P37
loop is nested inside the P297 block. -/
theorem claim4_cx :
    claimsArr c4obj "P297" = none ∧
    claimsArr c4obj "P37" = some [c4lang] ∧
    is_object_active (getQualifiers c4lang) 0 = true ∧
    mainsnakId c4lang = some "Q150" ∧
    handleObj c4obj "Q2" emptyClasses 0 true = .done [] :=
  ⟨rfl, rfl, rfl, rfl, by decide⟩

/-- Claim C4 (amended): the step-3 block runs only when the record has a
P297 claims array; when it does, it emits the Country fact (if any) and
then one ObjectLanguage per qualifier-active P37 statement with a
datavalue id, indexes assigned sequentially over surviving statements
only, independently of whether a Country fact was emitted and regardless
of classification flags. -/
theorem claim4_amended (obj : Json) (objId : String) (now : Int)
    (sent : List DataEntry) (langs : List Json) (idx : Nat) :
    p297step obj objId now true sent =
      .done (sent ++ countryPart obj objId now ++ p37Part obj objId now) ∧
    p297LangLoop objId now true langs idx sent =
      .done (sent ++ (List.enumFrom idx (p37Survivors now langs)).map
        fun p => DataEntry.ObjectLanguage objId p.2 p.1) :=
  ⟨p297step_done obj objId now sent, p297LangLoop_done objId now langs idx sent⟩

/-- Claim C8 counterexample: the single P17 statement of this record is
not skipped by the Inactive test (both temporal evaluations are Unknown),
yet no CityCountry fact is emitted, because the statement has no datavalue
id — the claim asserts a fact would be emitted with priority 1000. -/
theorem claim8_cx :
    is_object_start_active (getQualifiers (Json.obj [])) 0 = none ∧
    is_object_end_active (getQualifiers (Json.obj [])) 0 = none ∧
    claimsArr c8obj "P17" = some [Json.obj []] ∧
    handle_human_settlement c8obj 0 true [] =
      .done [DataEntry.City "Q8" none none none] :=
  ⟨rfl, rfl, rfl, by decide⟩

/-- Claim C8 (amended): a P17 country statement at iteration index i is
skipped iff its start or end evaluation is explicitly Inactive; otherwise
a CityCountry fact is emitted when (and only when) the statement has a
datavalue id, with priority i (as a u32, modulo 2 to the 32) if a start
qualifier was present and 1000 + i if not; statements lacking a datavalue
id are skipped with a warning. -/
theorem claim8_amended (objId : String) (now : Int) (entries : List Json)
    (i : Nat) (sent : List DataEntry) :
    countryLoop objId now true entries i sent =
      .done (sent ++ countryFacts objId now entries i) ∧
    countryFacts objId now entries i = (List.enumFrom i entries).filterMap
      (fun p =>
        if is_object_end_active (getQualifiers p.2) now = some false ∨
           is_object_start_active (getQualifiers p.2) now = some false then
          none
        else (mainsnakId p.2).map fun cid =>
          DataEntry.CityCountry objId cid
            (if (is_object_start_active (getQualifiers p.2) now).isSome
             then p.1 % 2 ^ 32
             else (1000 + p.1 % 2 ^ 32) % 2 ^ 32)) :=
  ⟨countryLoop_done objId now entries i sent, countryFacts_enum objId now entries i⟩

/-- Claim C6: population selection. Statement e1 at time t1 then e2 at a
later time t2 yields the amount of e2; a third statement carrying an
applies-to-part, female-population or male-population qualifier never
updates the selection even if its time is later (its derived time is
discarded); and at equal times the later statement in iteration order
wins. -/
theorem claim6_population (obj : Json) (objId : String) (now : Int)
    (entries : List Json) (e1 e2 e3 : Json) (t1 t2 : Int) (v1 v2 : Nat)
    (hid : idOf obj = some objId)
    (hP17 : claimsArr obj "P17" = some entries)
    (hpop : claimsArr obj "P1082" = some [e1, e2, e3])
    (ht1 : popEntryTime e1 = some t1) (hv1 : popEntryValue e1 = some v1)
    (ht2 : popEntryTime e2 = some t2) (hv2 : popEntryValue e2 = some v2)
    (hlt : t1 < t2)
    (hq3 : (qualFirstObj e3 "P518").isSome ∨
           (qualFirstObj e3 "P1539").isSome ∨
           (qualFirstObj e3 "P1540").isSome) :
    handle_human_settlement obj now true [] =
      .done (hsFacts obj objId now entries) ∧
    popOf obj = some v2 ∧
    cityFact obj objId =
      DataEntry.City objId (some v2) ((latLon obj).map Prod.fst)
        ((latLon obj).map Prod.snd) ∧
    cityFact obj objId ∈ hsFacts obj objId now entries ∧
    (∀ f1 f2 t u1 u2, popEntryTime f1 = some t → popEntryValue f1 = some u1 →
      popEntryTime f2 = some t → popEntryValue f2 = some u2 →
      (List.foldl popStep (none, none) [f1, f2]).1 = some u2) := by
  have s1 : popStep ((none : Option Nat), (none : Option Int)) e1 =
      (some v1, some t1) := by
    rw [popStep_factor, ht1]; simp [hv1]
  have s2 : popStep (some v1, some t1) e2 = (some v2, some t2) := by
    rw [popStep_factor, ht2]; simp [hv2, le_of_lt hlt]
  have s3 : popStep (some v2, some t2) e3 = (some v2, some t2) :=
    popStep_qual_noop _ e3 hq3
  have hpop2 : popOf obj = some v2 := by
    unfold popOf
    rw [hpop]
    simp [List.foldl, s1, s2, s3]
  refine ⟨by simpa using hs_done obj objId now entries [] hid hP17,
    hpop2, by unfold cityFact; rw [hpop2], by unfold hsFacts; simp,
    fun f1 f2 t u1 u2 h1 h2 h3 h4 => ?_⟩
  have a1 : popStep ((none : Option Nat), (none : Option Int)) f1 =
      (some u1, some t) := by
    rw [popStep_factor, h1]; simp [h2]
  have a2 : popStep (some u1, some t) f2 = (some u2, some t) := by
    rw [popStep_factor, h3]; simp [h4]
  simp [List.foldl, a1, a2]

theorem native1705_enum (objId : String) :
    ∀ (cs : List Json) (idx : Nat),
      native1705Facts objId cs idx =
        (List.enumFrom idx (cs.filterMap nativeValue)).map
          (fun p => DataEntry.ObjectLabel objId p.2.1 p.2.2 (some p.1)) := by
  intro cs
  induction cs with
  | nil => intro idx; simp [native1705Facts]
  | cons c rest ih =>
    intro idx
    rw [native1705Facts, List.filterMap_cons]
    cases hv : nativeValue c with
    | some lt => simp [hv, ih, List.enumFrom]
    | none => simp [hv, ih]

theorem native1448_enum (objId : String) (now : Int) :
    ∀ (cs : List Json) (idx : Nat),
      native1448Facts objId now cs idx =
        (List.enumFrom idx ((cs.filter fun c =>
            is_object_active (getQualifiers c) now).filterMap nativeValue)).map
          (fun p => DataEntry.ObjectLabel objId p.2.1 p.2.2 (some p.1)) := by
  intro cs
  induction cs with
  | nil => intro idx; simp [native1448Facts]
  | cons c rest ih =>
    intro idx
    rw [native1448Facts]
    by_cases hq : is_object_active (getQualifiers c) now
    · cases hv : nativeValue c with
      | some lt =>
        simp [List.filter_cons, hq, hv, ih, List.filterMap_cons,
          List.enumFrom]
      | none => simp [List.filter_cons, hq, hv, ih, List.filterMap_cons]
    · simp [List.filter_cons, hq, ih]

theorem hsFacts_filter_native (obj : Json) (objId : String) (now : Int)
    (entries : List Json) :
    (hsFacts obj objId now entries).filter isNativeLabel =
      nativePart obj objId now := by
  unfold hsFacts
  have h1 : (placePart obj objId now).filter isNativeLabel = [] := by
    rw [List.filter_eq_nil_iff]
    intro f hf
    obtain ⟨a, b, rfl⟩ := placePart_shape obj objId now f hf
    simp [isNativeLabel]
  have h2 : (countryFacts objId now entries 0).filter isNativeLabel = [] := by
    rw [List.filter_eq_nil_iff]
    intro f hf
    obtain ⟨a, b, c, rfl⟩ := countryFacts_shape objId now entries 0 f hf
    simp [isNativeLabel]
  have h3 : isNativeLabel (cityFact obj objId) = false := rfl
  have h4 : (labelPart obj objId).filter isNativeLabel = [] := by
    rw [List.filter_eq_nil_iff]
    intro f hf
    obtain ⟨a, b, c, rfl⟩ := labelPart_shape obj objId f hf
    simp [isNativeLabel]
  have h5 : (nativePart obj objId now).filter isNativeLabel =
      nativePart obj objId now := by
    rw [List.filter_eq_self]
    intro f hf
    obtain ⟨a, b, c, i, rfl⟩ := nativePart_shape obj objId now f hf
    rfl
  simp [List.filter_append, List.filter_cons, h1, h2, h3, h4, h5]

/-- Claim C9: native-name selection. When the record has a P17 claims
array the handler emits exactly hsFacts, whose native-ordered labels are
nativePart; nativePart is sourced exclusively from the P1705 native-label
property whenever its claims array exists (even empty), with one
ObjectLabel per decomposable statement and sequential native order over
valid entries only, with no active-qualifier filter; the P1448
official-name fallback is consulted only when P1705 is absent, and then
only over statements passing is_object_active, with its own sequential
index. -/
theorem claim9_native (obj : Json) (objId : String) (now : Int)
    (entries : List Json) (sent : List DataEntry) (ns os : List Json)
    (idx : Nat) :
    (idOf obj = some objId → claimsArr obj "P17" = some entries →
      handle_human_settlement obj now true sent =
        .done (sent ++ hsFacts obj objId now entries) ∧
      (hsFacts obj objId now entries).filter isNativeLabel =
        nativePart obj objId now) ∧
    (claimsArr obj "P1705" = some ns →
      nativePart obj objId now = native1705Facts objId ns 0) ∧
    native1705Facts objId ns idx =
      (List.enumFrom idx (ns.filterMap nativeValue)).map
        (fun p => DataEntry.ObjectLabel objId p.2.1 p.2.2 (some p.1)) ∧
    (claimsArr obj "P1705" = none → claimsArr obj "P1448" = some os →
      nativePart obj objId now = native1448Facts objId now os 0) ∧
    native1448Facts objId now os idx =
      (List.enumFrom idx ((os.filter fun c =>
          is_object_active (getQualifiers c) now).filterMap nativeValue)).map
        (fun p => DataEntry.ObjectLabel objId p.2.1 p.2.2 (some p.1)) := by
  refine ⟨fun hid hP17 => ⟨hs_done obj objId now entries sent hid hP17,
      hsFacts_filter_native obj objId now entries⟩,
    fun h5 => ?_, native1705_enum objId ns idx,
    fun h5 h8 => ?_, native1448_enum objId now os idx⟩
  · unfold nativePart; rw [h5]
  · unfold nativePart; rw [h5, h8]

theorem hsFacts_mem (obj : Json) (objId : String) (now : Int)
    (entries : List Json) :
    ∀ f ∈ hsFacts obj objId now entries,
      (∃ a b, f = DataEntry.TerritorialEntityParent a b) ∨
      (∃ a b c, f = DataEntry.CityCountry a b c) ∨
      f = cityFact obj objId ∨
      (∃ a b c, f = DataEntry.ObjectLabel a b c none) ∨
      (∃ a b c i, f = DataEntry.ObjectLabel a b c (some i)) := by
  intro f hf
  unfold hsFacts at hf
  simp only [List.mem_append, List.mem_singleton] at hf
  rcases hf with (((hf | hf) | hf) | hf) | hf
  · exact Or.inl (placePart_shape obj objId now f hf)
  · exact Or.inr (Or.inl (countryFacts_shape objId now entries 0 f hf))
  · exact Or.inr (Or.inr (Or.inl hf))
  · exact Or.inr (Or.inr (Or.inr (Or.inl (labelPart_shape obj objId f hf))))
  · exact Or.inr (Or.inr (Or.inr (Or.inr (nativePart_shape obj objId now f hf))))

theorem hsFacts_countP_missing (obj : Json) (objId : String) (now : Int)
    (entries : List Json) :
    (hsFacts obj objId now entries).countP isMissingP17Fact = 0 := by
  rw [List.countP_eq_zero]
  intro f hf
  rcases hsFacts_mem obj objId now entries f hf with
    ⟨a, b, rfl⟩ | ⟨a, b, c, rfl⟩ | rfl | ⟨a, b, c, rfl⟩ | ⟨a, b, c, i, rfl⟩ <;>
    simp [isMissingP17Fact, cityFact]

/-- Claim C10: the MissingP17 fact is sent, with an immediate return,
exactly when the record has no P17 claims array; with a P17 array present
(even empty) the handler runs in full and never emits MissingP17; and
with an empty P17 array it emits exactly one City fact and no CityCountry
facts. -/
theorem claim10_missing_country (obj : Json) (objId : String) (now : Int)
    (sent : List DataEntry) (hid : idOf obj = some objId) :
    (claimsArr obj "P17" = none →
      handle_human_settlement obj now true sent =
        .done (sent ++ [DataEntry.MissingP17 objId])) ∧
    (∀ entries, claimsArr obj "P17" = some entries →
      handle_human_settlement obj now true sent =
        .done (sent ++ hsFacts obj objId now entries) ∧
      (hsFacts obj objId now entries).countP isMissingP17Fact = 0) ∧
    (claimsArr obj "P17" = some [] →
      (hsFacts obj objId now []).countP isCity = 1 ∧
      (hsFacts obj objId now []).countP isCityCountry = 0) := by
  refine ⟨fun h => ?_, fun entries h => ⟨hs_done obj objId now entries sent hid h,
      hsFacts_countP_missing obj objId now entries⟩, fun _ => ⟨?_, ?_⟩⟩
  · unfold handle_human_settlement
    rw [hid, h]
    simp [send]
  · have h1 : (placePart obj objId now).countP isCity = 0 := by
      rw [List.countP_eq_zero]
      intro f hf
      obtain ⟨a, b, rfl⟩ := placePart_shape obj objId now f hf
      simp [isCity]
    have h4 : (labelPart obj objId).countP isCity = 0 := by
      rw [List.countP_eq_zero]
      intro f hf
      obtain ⟨a, b, c, rfl⟩ := labelPart_shape obj objId f hf
      simp [isCity]
    have h5 : (nativePart obj objId now).countP isCity = 0 := by
      rw [List.countP_eq_zero]
      intro f hf
      obtain ⟨a, b, c, i, rfl⟩ := nativePart_shape obj objId now f hf
      simp [isCity]
    unfold hsFacts
    simp [List.countP_append, h1, h4, h5, countryFacts, List.countP_cons,
      isCity, cityFact]
  · have h1 : (placePart obj objId now).countP isCityCountry = 0 := by
      rw [List.countP_eq_zero]
      intro f hf
      obtain ⟨a, b, rfl⟩ := placePart_shape obj objId now f hf
      simp [isCityCountry]
    have h4 : (labelPart obj objId).countP isCityCountry = 0 := by
      rw [List.countP_eq_zero]
      intro f hf
      obtain ⟨a, b, c, rfl⟩ := labelPart_shape obj objId f hf
      simp [isCityCountry]
    have h5 : (nativePart obj objId now).countP isCityCountry = 0 := by
      rw [List.countP_eq_zero]
      intro f hf
      obtain ⟨a, b, c, i, rfl⟩ := nativePart_shape obj objId now f hf
      simp [isCityCountry]
    unfold hsFacts
    simp [List.countP_append, h1, h4, h5, countryFacts, List.countP_cons,
      isCityCountry, cityFact]

/-- A population statement: time 1, amount 100, dimensionless unit. -/
def w6e1 : Json :=
  .obj [("qualifiers", .obj [("P585", .arr [Json.obj [
          ("snaktype", .str "value"),
          ("datavalue", .obj [("value", .obj [("time", .str "1"),
             ("timezone", .num ⟨0, 0⟩)])])]])]),
        ("mainsnak", .obj [("datavalue", .obj [("value", .obj [
          ("amount", .str "100"), ("unit", .str "1")])])])]

/-- A population statement: time 2, amount 200, dimensionless unit. -/
def w6e2 : Json :=
  .obj [("qualifiers", .obj [("P585", .arr [Json.obj [
          ("snaktype", .str "value"),
          ("datavalue", .obj [("value", .obj [("time", .str "2"),
             ("timezone", .num ⟨0, 0⟩)])])]])]),
        ("mainsnak", .obj [("datavalue", .obj [("value", .obj [
          ("amount", .str "200"), ("unit", .str "1")])])])]

/-- A population statement carrying a female-population qualifier. -/
def w6e3 : Json := .obj [("qualifiers", .obj [("P1539", .arr [Json.obj []])])]

/-- A record with an empty P17 array and the three population statements
above. -/
def w6obj : Json :=
  .obj [("id", .str "Q7"),
        ("claims", .obj [("P17", .arr []),
                         ("P1082", .arr [w6e1, w6e2, w6e3])])]

/-- Claim C6 witness: the record above selects the amount of the later
statement. -/
theorem claim6_witness : popOf w6obj = some 200 :=
  (claim6_population w6obj "Q7" 0 [] w6e1 w6e2 w6e3 1 2 100 200 rfl rfl rfl
    rfl rfl rfl rfl (by decide) (Or.inr (Or.inl rfl))).2.1

/-- A decomposable native-label statement. -/
def w9valid : Json :=
  .obj [("mainsnak", .obj [("datavalue", .obj [("value", .obj [
    ("language", .str "eo"), ("text", .str "Berlino")])])])]

/-- A record with an empty P17 array and a P1705 native-label property
holding one valid and one invalid statement. -/
def w9obj : Json :=
  .obj [("id", .str "Q31"),
        ("claims", .obj [("P17", .arr []),
                         ("P1705", .arr [w9valid, Json.obj []])])]

/-- Claim C9 witness. -/
theorem claim9_witness :
    handle_human_settlement w9obj 0 true [] =
      .done ([] ++ hsFacts w9obj "Q31" 0 []) :=
  ((claim9_native w9obj "Q31" 0 [] [] [w9valid, Json.obj []] [] 0).1 rfl rfl).1

/-- A record whose P17 country property is present but an empty array. -/
def w10obj : Json :=
  .obj [("id", .str "Q64"), ("claims", .obj [("P17", .arr [])])]

/-- Claim C10 witness: the empty-P17 record runs the full handler and its
facts hold exactly one City fact. -/
theorem claim10_witness :
    handle_human_settlement w10obj 0 true [] =
      .done ([] ++ hsFacts w10obj "Q64" 0 []) ∧
    (hsFacts w10obj "Q64" 0 []).countP isCity = 1 :=
  ⟨((claim10_missing_country w10obj "Q64" 0 [] rfl).2.1 [] rfl).1,
   ((claim10_missing_country w10obj "Q64" 0 [] rfl).2.2 rfl).1⟩

end GeoDb
